import Mathlib

/-
  Verification of the managed-buffer / render-resource synchronization layer
  of polyscope (src/render/managed_buffer.cpp).

  The C++ class `ManagedBuffer<T>` is embedded shallowly as a Lean structure
  over an element type `α`, with all mutating member functions becoming
  explicit state-passing functions; calls to `exception(...)` become
  `Except.error`.  The external collaborators `render::AttributeBuffer`,
  `gather`, and the device-side feedback copy program are not part of the
  provided sources and are modelled from the spec (each such definition is
  marked `Modelled from the spec:` in its doc comment).

  The C++ member `computeFunc` is a `std::function<void()>` closure over the
  buffer itself; since a structure cannot contain a function over itself, the
  callback is passed explicitly (as a state transformer) to each member
  function that may invoke it.  A ghost counter `computeCount` records how
  many times the callback has been invoked, and a ghost flag
  `redrawRequested` records calls to `requestRedraw()`.
-/

namespace Polyscope

/-- The three possible canonical data sources of a managed buffer,
`ManagedBuffer<T>::CanonicalDataSource` in the source. -/
inductive CanonicalDataSource where
  | HostData
  | NeedsCompute
  | RenderBuffer
deriving DecidableEq

/-- Modelled from the spec: `render::AttributeBuffer` (an external
collaborator, not among the provided sources) is an opaque GPU-resident
buffer.  `bufID` models the identity of the underlying buffer object (two
shared handles alias the same object iff the ids agree); `contents` is the
device-side element sequence. -/
structure AttributeBuffer (α : Type) where
  bufID : Nat
  contents : List α
deriving DecidableEq

/-- Modelled from the spec: `setData` replaces a device buffer contents
wholesale while keeping the identity of the buffer object. -/
def AttributeBuffer.setData (b : AttributeBuffer α) (d : List α) : AttributeBuffer α :=
  { b with contents := d }

/-- Modelled from the spec: `getDataSize` queries a device buffer current
element count. -/
def AttributeBuffer.getDataSize (b : AttributeBuffer α) : Nat :=
  b.contents.length

/-- Modelled from the spec: `gather(data, indices)` computes the expanded
sequence with `expanded[k] = data[indices[k]]` for all k (the helper lives in
a translation unit that is not among the provided sources). -/
def gather [Inhabited α] (data : List α) (indices : List Nat) : List α :=
  indices.map (fun i => data.getD i default)

/-- The index buffer (`ManagedBuffer<uint32_t>`) as referenced from a view
cache entry: the identity key used for cache lookups and its host data.  The
model assumes the index buffer is host-populated, so its
`ensureHostBufferPopulated()` is a no-op and `indices.data` is `data`. -/
structure IndexBufferRef where
  uniqueID : Nat
  data : List Nat
deriving DecidableEq

/-- One entry of the indexed-view cache, `ManagedBuffer<T>::ExistingViewEntry`
in the source.  `viewAlive` models whether `viewBuffer.lock()` succeeds, i.e.
whether an external strong reference to the view buffer still exists
(`viewAlive = false` iff the weak reference has expired).
`deviceUpdateProgram` models whether the lazily-created device copy program
exists for this entry. -/
structure ExistingViewEntry (α : Type) where
  indices : IndexBufferRef
  viewBuffer : AttributeBuffer α
  viewAlive : Bool
  deviceUpdateProgram : Bool
deriving DecidableEq

/-- The state of one `ManagedBuffer<T>`.  Fields `name` through
`existingIndexedViews` are the members of the C++ class; `nextBufID` models
the allocator of fresh device buffer object identities; `computeCount` and
`redrawRequested` are ghost observers. -/
structure ManagedBuffer (α : Type) where
  name : String
  uniqueID : Nat
  data : List α
  hostBufferIsPopulated : Bool
  dataGetsComputed : Bool
  renderAttributeBuffer : Option (AttributeBuffer α)
  existingIndexedViews : List (ExistingViewEntry α)
  nextBufID : Nat
  computeCount : Nat
  redrawRequested : Bool
deriving DecidableEq

/-- The constructor `ManagedBuffer(name, data)`: host data already populated,
no compute function. -/
def mkManagedBuffer (name_ : String) (uid : Nat) (data_ : List α) : ManagedBuffer α :=
  { name := name_, uniqueID := uid, data := data_,
    hostBufferIsPopulated := true, dataGetsComputed := false,
    renderAttributeBuffer := none, existingIndexedViews := [],
    nextBufID := 0, computeCount := 0, redrawRequested := false }

/-- The constructor `ManagedBuffer(name, data, computeFunc)`: lazily computed,
host buffer initially not populated. -/
def mkManagedBufferComputed (name_ : String) (uid : Nat) (data_ : List α) : ManagedBuffer α :=
  { name := name_, uniqueID := uid, data := data_,
    hostBufferIsPopulated := false, dataGetsComputed := true,
    renderAttributeBuffer := none, existingIndexedViews := [],
    nextBufID := 0, computeCount := 0, redrawRequested := false }

/-- `ManagedBuffer<T>::currentCanonicalDataSource()`: host data if populated,
else the render buffer if it exists, else needs-compute if a compute function
was supplied, else an internal-consistency error. -/
def ManagedBuffer.currentCanonicalDataSource (s : ManagedBuffer α) :
    Except String CanonicalDataSource :=
  if s.hostBufferIsPopulated then .ok .HostData
  else if s.renderAttributeBuffer.isSome then .ok .RenderBuffer
  else if s.dataGetsComputed then .ok .NeedsCompute
  else .error ("ManagedBuffer " ++ s.name ++
    " does not have a data in either host or device buffers, nor a compute function.")

/-- Invoking the stored `computeFunc` callback: the ghost invocation counter
is bumped and the callback (an arbitrary state transformer, constrained by a
contract hypothesis where a claim needs it) is applied. -/
def callComputeFunc (computeFunc : ManagedBuffer α → ManagedBuffer α)
    (s : ManagedBuffer α) : ManagedBuffer α :=
  computeFunc { s with computeCount := s.computeCount + 1 }

/-- `ManagedBuffer<T>::ensureHostBufferPopulated()`: no-op when the host data
is canonical, invokes the compute callback when it needs compute, and copies
the full device buffer contents back into the host array when the render
buffer is canonical (leaving `hostBufferIsPopulated` untouched). -/
def ManagedBuffer.ensureHostBufferPopulated
    (computeFunc : ManagedBuffer α → ManagedBuffer α) (s : ManagedBuffer α) :
    Except String (ManagedBuffer α) :=
  match s.currentCanonicalDataSource with
  | .error e => .error e
  | .ok .HostData => .ok s
  | .ok .NeedsCompute => .ok (callComputeFunc computeFunc s)
  | .ok .RenderBuffer =>
    match s.renderAttributeBuffer with
    | none => .error "render buffer should be allocated but is not"
    | some rb => .ok { s with data := rb.contents }

/-- `ManagedBuffer<T>::invalidateHostBuffer()`: marks the host buffer stale
and clears the host array contents. -/
def ManagedBuffer.invalidateHostBuffer (s : ManagedBuffer α) : ManagedBuffer α :=
  { s with hostBufferIsPopulated := false, data := [] }

/-- `ManagedBuffer<T>::removeDeletedIndexedViews()`: erase-remove of all cache
entries whose weak view reference has expired. -/
def ManagedBuffer.removeDeletedIndexedViews (s : ManagedBuffer α) : ManagedBuffer α :=
  { s with existingIndexedViews := s.existingIndexedViews.filter (fun v => v.viewAlive) }

/-- The body of the per-entry switch in `ManagedBuffer<T>::updateIndexedViews()`:
refresh one live view entry from the current canonical source.  In the
`RenderBuffer` case the lazily-created feedback program is bound to the
current render buffer and executed, which writes
`source[indices[k]]` into `view[k]` entirely on the device; the sanity check
of `ensureHaveBufferIndexCopyProgram` (no render buffer allocated) is
unreachable there since the canonical source being `RenderBuffer` implies the
buffer exists, but is kept faithfully. -/
def ManagedBuffer.updateViewEntry [Inhabited α] (s : ManagedBuffer α)
    (v : ExistingViewEntry α) : Except String (ExistingViewEntry α) :=
  match s.currentCanonicalDataSource with
  | .error e => .error e
  | .ok .HostData =>
    .ok { v with viewBuffer := v.viewBuffer.setData (gather s.data v.indices.data) }
  | .ok .NeedsCompute =>
    .error "ManagedBuffer error: indexed view is being updated, but needs compute"
  | .ok .RenderBuffer =>
    match s.renderAttributeBuffer with
    | none => .error ("ManagedBuffer " ++ s.name ++ " asked to copy indices, but has no buffers")
    | some rb =>
      .ok { v with deviceUpdateProgram := true,
                   viewBuffer := v.viewBuffer.setData (gather rb.contents v.indices.data) }

/-- The loop of `ManagedBuffer<T>::updateIndexedViews()`: entries whose weak
reference fails to lock are skipped unchanged; an exception from an entry
aborts the remaining iterations. -/
def updateViewsList [Inhabited α] (s : ManagedBuffer α) :
    List (ExistingViewEntry α) → Except String (List (ExistingViewEntry α))
  | [] => .ok []
  | v :: rest =>
    if v.viewAlive then
      match s.updateViewEntry v with
      | .error e => .error e
      | .ok v2 => (updateViewsList s rest).map (fun r => v2 :: r)
    else
      (updateViewsList s rest).map (fun r => v :: r)

/-- `ManagedBuffer<T>::updateIndexedViews()`: prune dead entries, then refresh
every remaining live view from the current canonical source. -/
def ManagedBuffer.updateIndexedViews [Inhabited α] (s : ManagedBuffer α) :
    Except String (ManagedBuffer α) :=
  let s2 := s.removeDeletedIndexedViews
  match updateViewsList s2 s2.existingIndexedViews with
  | .error e => .error e
  | .ok vs => .ok { s2 with existingIndexedViews := vs }

/-- `ManagedBuffer<T>::markHostBufferUpdated()`: set the populated flag, push
the host array into the device buffer if one exists (requesting a redraw),
then refresh all indexed views. -/
def ManagedBuffer.markHostBufferUpdated [Inhabited α] (s : ManagedBuffer α) :
    Except String (ManagedBuffer α) :=
  let s1 : ManagedBuffer α := { s with hostBufferIsPopulated := true }
  let s2 : ManagedBuffer α :=
    match s1.renderAttributeBuffer with
    | some rb => { s1 with renderAttributeBuffer := some (rb.setData s1.data),
                           redrawRequested := true }
    | none => s1
  s2.updateIndexedViews

/-- The out-of-bounds diagnostic raised by `getValue`. -/
def oobMsg (name_ : String) (ind : Nat) : String :=
  "out of bounds access in ManagedBuffer " ++ name_ ++ " getValue(" ++ toString ind ++ ")"

/-- `ManagedBuffer<T>::getValue(ind)`: read one element through whichever
source is canonical, bounds-checking against that source own size; in the
needs-compute state the compute callback runs first and the bound is checked
against the freshly computed host data. -/
def ManagedBuffer.getValue [Inhabited α] (computeFunc : ManagedBuffer α → ManagedBuffer α)
    (s : ManagedBuffer α) (ind : Nat) : Except String (α × ManagedBuffer α) :=
  match s.currentCanonicalDataSource with
  | .error e => .error e
  | .ok .HostData =>
    if ind ≥ s.data.length then .error (oobMsg s.name ind)
    else .ok (s.data.getD ind default, s)
  | .ok .NeedsCompute =>
    let s1 := callComputeFunc computeFunc s
    if ind ≥ s1.data.length then .error (oobMsg s1.name ind)
    else .ok (s1.data.getD ind default, s1)
  | .ok .RenderBuffer =>
    match s.renderAttributeBuffer with
    | none => .error "internal: RenderBuffer source without a buffer"
    | some rb =>
      if ind ≥ rb.getDataSize then .error (oobMsg s.name ind)
      else .ok (rb.contents.getD ind default, s)

/-- `ManagedBuffer<T>::size()`: element count of the canonical source, 0 in
the needs-compute state. -/
def ManagedBuffer.size (s : ManagedBuffer α) : Except String Nat :=
  match s.currentCanonicalDataSource with
  | .error e => .error e
  | .ok .HostData => .ok s.data.length
  | .ok .NeedsCompute => .ok 0
  | .ok .RenderBuffer =>
    match s.renderAttributeBuffer with
    | none => .error "internal: RenderBuffer source without a buffer"
    | some rb => .ok rb.getDataSize

/-- `ManagedBuffer<T>::hasData()`. -/
def ManagedBuffer.hasData (s : ManagedBuffer α) : Bool :=
  s.hostBufferIsPopulated || s.renderAttributeBuffer.isSome

/-- `ManagedBuffer<T>::recomputeIfPopulated()`: usage error without a compute
function; no-op when nothing has been computed yet; otherwise invalidate,
recompute, and mark the host buffer updated. -/
def ManagedBuffer.recomputeIfPopulated [Inhabited α]
    (computeFunc : ManagedBuffer α → ManagedBuffer α) (s : ManagedBuffer α) :
    Except String (ManagedBuffer α) :=
  if !s.dataGetsComputed then
    .error "called recomputeIfPopulated() on buffer which does not get computed"
  else
    match s.currentCanonicalDataSource with
    | .error e => .error e
    | .ok .NeedsCompute => .ok s
    | .ok _ =>
      (callComputeFunc computeFunc s.invalidateHostBuffer).markHostBufferUpdated

/-- `ManagedBuffer<T>::getRenderAttributeBuffer()`: return the device buffer,
creating it (after ensuring the host buffer is populated) on first request;
the freshly generated buffer is filled from the host data via `setData`. -/
def ManagedBuffer.getRenderAttributeBuffer [Inhabited α]
    (computeFunc : ManagedBuffer α → ManagedBuffer α) (s : ManagedBuffer α) :
    Except String (AttributeBuffer α × ManagedBuffer α) :=
  match s.renderAttributeBuffer with
  | some rb => .ok (rb, s)
  | none =>
    match s.ensureHostBufferPopulated computeFunc with
    | .error e => .error e
    | .ok s1 =>
      let newBuf : AttributeBuffer α := { bufID := s1.nextBufID, contents := s1.data }
      .ok (newBuf, { s1 with renderAttributeBuffer := some newBuf,
                             nextBufID := s1.nextBufID + 1 })

/-- `ManagedBuffer<T>::markRenderAttributeBufferUpdated()`: invalidate the
host copy, refresh all indexed views, request a redraw. -/
def ManagedBuffer.markRenderAttributeBufferUpdated [Inhabited α] (s : ManagedBuffer α) :
    Except String (ManagedBuffer α) :=
  match s.invalidateHostBuffer.updateIndexedViews with
  | .error e => .error e
  | .ok s2 => .ok { s2 with redrawRequested := true }

/-- The cache scan of `ManagedBuffer<T>::getIndexedRenderAttributeBuffer`:
the first entry whose weak view reference still locks and whose index buffer
`uniqueID` matches. -/
def findLiveView (uid : Nat) : List (ExistingViewEntry α) → Option (ExistingViewEntry α)
  | [] => none
  | v :: rest =>
    if v.viewAlive && v.indices.uniqueID == uid then some v
    else findLiveView uid rest

/-- `ManagedBuffer<T>::getIndexedRenderAttributeBuffer(indices)`: prune dead
entries; on a cache hit return the existing strong handle; on a miss ensure
the host buffer is populated, allocate a fresh device buffer filled with
`gather(data, indices.data)`, record the new entry (live, no device update
program yet), and return the new handle. -/
def ManagedBuffer.getIndexedRenderAttributeBuffer [Inhabited α]
    (computeFunc : ManagedBuffer α → ManagedBuffer α) (s : ManagedBuffer α)
    (indices : IndexBufferRef) : Except String (AttributeBuffer α × ManagedBuffer α) :=
  let s1 := s.removeDeletedIndexedViews
  match findLiveView indices.uniqueID s1.existingIndexedViews with
  | some v => .ok (v.viewBuffer, s1)
  | none =>
    match s1.ensureHostBufferPopulated computeFunc with
    | .error e => .error e
    | .ok s2 =>
      let newBuffer : AttributeBuffer α :=
        { bufID := s2.nextBufID, contents := gather s2.data indices.data }
      .ok (newBuffer, { s2 with
        nextBufID := s2.nextBufID + 1,
        existingIndexedViews := s2.existingIndexedViews ++
          [{ indices := indices, viewBuffer := newBuffer,
             viewAlive := true, deviceUpdateProgram := false }] })

/-- Extract the state from a successful operation, keeping the previous state
on error (used to build concrete compute callbacks and scenario states). -/
def okOr (r : Except String (ManagedBuffer α)) (s : ManagedBuffer α) : ManagedBuffer α :=
  match r with
  | .ok t => t
  | .error _ => s

/-- A contract-respecting compute callback: fill the host array with `d` and
finish by calling `markHostBufferUpdated`, as the spec requires of
`computeFunc`. -/
def fillCompute [Inhabited α] (d : List α) (t : ManagedBuffer α) : ManagedBuffer α :=
  okOr (ManagedBuffer.markHostBufferUpdated { t with data := d }) t

/-- The contract on compute callbacks stated by the spec: a callback
populates the host array with some data and then calls
`markHostBufferUpdated` (so the callback result is exactly the result of that
call). -/
def computeContract [Inhabited α] (computeFunc : ManagedBuffer α → ManagedBuffer α) : Prop :=
  ∀ t, ∃ d, ManagedBuffer.markHostBufferUpdated { t with data := d } = .ok (computeFunc t)

/-- How one view entry changes under a host-side refresh with host data `d`:
live entries get the recomputed gather uploaded into their (identity-stable)
view buffer, dead entries are untouched. -/
def hostRefresh [Inhabited α] (d : List α) (v : ExistingViewEntry α) : ExistingViewEntry α :=
  if v.viewAlive then { v with viewBuffer := v.viewBuffer.setData (gather d v.indices.data) }
  else v

/-- How one view entry changes under a device-side refresh from render buffer
`rb`: live entries get the device copy program (created if absent) executed,
writing the gather of the device contents. -/
def deviceRefresh [Inhabited α] (rb : AttributeBuffer α) (v : ExistingViewEntry α) :
    ExistingViewEntry α :=
  if v.viewAlive then
    { v with deviceUpdateProgram := true,
             viewBuffer := v.viewBuffer.setData (gather rb.contents v.indices.data) }
  else v

/-- The explicit result of `markHostBufferUpdated` (which, as proved below,
always succeeds): populated flag set, device buffer mirrored from host if
present, dead view entries pruned, live ones refreshed from the host data. -/
def markHostResult [Inhabited α] (s : ManagedBuffer α) : ManagedBuffer α :=
  let s1 : ManagedBuffer α := { s with hostBufferIsPopulated := true }
  let s2 : ManagedBuffer α :=
    match s1.renderAttributeBuffer with
    | some rb => { s1 with renderAttributeBuffer := some (rb.setData s1.data),
                           redrawRequested := true }
    | none => s1
  { s2 with existingIndexedViews :=
      (s2.existingIndexedViews.filter (fun v => v.viewAlive)).map (hostRefresh s2.data) }

/-- Two states agree on the identity of the device buffer object: whenever
the first has a device buffer, the second has one with the same object id
(its contents may differ — only identity is constrained). -/
def sameDeviceID (s s2 : ManagedBuffer α) : Prop :=
  ∀ rb, s.renderAttributeBuffer = some rb →
    ∃ rb2, s2.renderAttributeBuffer = some rb2 ∧ rb2.bufID = rb.bufID

/-- A compute callback never swaps the identity of the device buffer. -/
def preservesDeviceID (computeFunc : ManagedBuffer α → ManagedBuffer α) : Prop :=
  ∀ t, sameDeviceID t (computeFunc t)

/- Concrete scenario states, used by counterexamples and witnesses. -/

/-- Scenario A buffer: host array `[10, 20, 30]`, no compute function. -/
def mbA : ManagedBuffer Int := mkManagedBuffer "a" 1 [10, 20, 30]

/-- An index buffer `[2, 0, 1]` with identity key 42. -/
def idxI : IndexBufferRef := { uniqueID := 42, data := [2, 0, 1] }

/-- A callback that is never invoked in the scenarios that use it. -/
def nocompute : ManagedBuffer Int → ManagedBuffer Int := fun t => t

/-- A contract-respecting callback producing `[0]`, for scenarios whose
buffer is already populated (so it is never invoked). -/
def cf0 : ManagedBuffer Int → ManagedBuffer Int := fillCompute [0]

/-- Scenario B buffer: empty host array, compute function pending. -/
def mbB : ManagedBuffer Int := mkManagedBufferComputed "b" 7 []

/-- Scenario B compute function: fills the host array with `[5, 6, 7]` and
calls `markHostBufferUpdated`. -/
def computeB : ManagedBuffer Int → ManagedBuffer Int := fillCompute [5, 6, 7]

/-- Scenario B buffer after its first `ensureHostBufferPopulated`. -/
def sB1 : ManagedBuffer Int := okOr (mbB.ensureHostBufferPopulated computeB) mbB

/-- The result of requesting an indexed view of `mbA` over `idxI`. -/
def pA : AttributeBuffer Int × ManagedBuffer Int :=
  match mbA.getIndexedRenderAttributeBuffer cf0 idxI with
  | .ok p => p
  | .error _ => ({ bufID := 0, contents := [] }, mbA)

/-- A device buffer holding `[1, 2, 3]`, for device-resident scenarios. -/
def rbW : AttributeBuffer Int := { bufID := 11, contents := [1, 2, 3] }

/-- A buffer whose device buffer `rbW` exists and which carries one live
indexed view, for the device-update scenarios. -/
def mbW : ManagedBuffer Int :=
  { mkManagedBuffer "w" 4 [9, 9, 9] with
    renderAttributeBuffer := some rbW,
    existingIndexedViews :=
      [{ indices := { uniqueID := 8, data := [0, 2] },
         viewBuffer := { bufID := 12, contents := [0, 0] },
         viewAlive := true, deviceUpdateProgram := false }] }

/-- A buffer whose canonical source is the device buffer: host not populated,
device buffer `rbW` present. -/
def mbD : ManagedBuffer Int :=
  { mkManagedBufferComputed "d" 6 [] with renderAttributeBuffer := some rbW }

theorem updateViewsList_host [Inhabited α] (s : ManagedBuffer α)
    (h : s.hostBufferIsPopulated = true) (l : List (ExistingViewEntry α)) :
    updateViewsList s l = .ok (l.map (hostRefresh s.data)) := by
  induction l with
  | nil => simp [updateViewsList]
  | cons v rest ih =>
    by_cases hv : v.viewAlive = true <;>
      simp [updateViewsList, hv, ih, hostRefresh, ManagedBuffer.updateViewEntry,
        ManagedBuffer.currentCanonicalDataSource, h, Except.map]

theorem updateViewsList_device [Inhabited α] (s : ManagedBuffer α)
    (h : s.hostBufferIsPopulated = false) (rb : AttributeBuffer α)
    (hrb : s.renderAttributeBuffer = some rb) (l : List (ExistingViewEntry α)) :
    updateViewsList s l = .ok (l.map (deviceRefresh rb)) := by
  induction l with
  | nil => simp [updateViewsList]
  | cons v rest ih =>
    by_cases hv : v.viewAlive = true <;>
      simp [updateViewsList, hv, ih, deviceRefresh, ManagedBuffer.updateViewEntry,
        ManagedBuffer.currentCanonicalDataSource, h, hrb, Except.map]

theorem updateIndexedViews_host [Inhabited α] (s : ManagedBuffer α)
    (h : s.hostBufferIsPopulated = true) :
    s.updateIndexedViews = .ok { s with existingIndexedViews :=
      (s.existingIndexedViews.filter (fun v => v.viewAlive)).map (hostRefresh s.data) } := by
  simp only [ManagedBuffer.updateIndexedViews, ManagedBuffer.removeDeletedIndexedViews]
  rw [updateViewsList_host
    ({ s with existingIndexedViews := s.existingIndexedViews.filter (fun v => v.viewAlive) }) h]

theorem updateIndexedViews_device [Inhabited α] (s : ManagedBuffer α)
    (h : s.hostBufferIsPopulated = false) (rb : AttributeBuffer α)
    (hrb : s.renderAttributeBuffer = some rb) :
    s.updateIndexedViews = .ok { s with existingIndexedViews :=
      (s.existingIndexedViews.filter (fun v => v.viewAlive)).map (deviceRefresh rb) } := by
  simp only [ManagedBuffer.updateIndexedViews, ManagedBuffer.removeDeletedIndexedViews]
  rw [updateViewsList_device
    ({ s with existingIndexedViews := s.existingIndexedViews.filter (fun v => v.viewAlive) }) h rb hrb]

theorem markHostBufferUpdated_eq [Inhabited α] (s : ManagedBuffer α) :
    s.markHostBufferUpdated = .ok (markHostResult s) := by
  unfold ManagedBuffer.markHostBufferUpdated markHostResult
  cases hrb : s.renderAttributeBuffer <;>
    simp [hrb, updateIndexedViews_host]

theorem fillCompute_contract [Inhabited α] (d : List α) :
    computeContract (fillCompute (α := α) d) := by
  intro t
  refine ⟨d, ?_⟩
  rw [markHostBufferUpdated_eq]
  simp [fillCompute, okOr, markHostBufferUpdated_eq]

theorem markHostResult_hostBufferIsPopulated [Inhabited α] (s : ManagedBuffer α) :
    (markHostResult s).hostBufferIsPopulated = true := by
  cases hrb : s.renderAttributeBuffer <;> simp [markHostResult, hrb]

theorem markHostResult_data [Inhabited α] (s : ManagedBuffer α) :
    (markHostResult s).data = s.data := by
  cases hrb : s.renderAttributeBuffer <;> simp [markHostResult, hrb]

theorem markHostResult_computeCount [Inhabited α] (s : ManagedBuffer α) :
    (markHostResult s).computeCount = s.computeCount := by
  cases hrb : s.renderAttributeBuffer <;> simp [markHostResult, hrb]

theorem markHostResult_renderAttributeBuffer [Inhabited α] (s : ManagedBuffer α) :
    (markHostResult s).renderAttributeBuffer =
      s.renderAttributeBuffer.map (fun rb => rb.setData s.data) := by
  cases hrb : s.renderAttributeBuffer <;> simp [markHostResult, hrb]

theorem markHostResult_existingIndexedViews [Inhabited α] (s : ManagedBuffer α) :
    (markHostResult s).existingIndexedViews =
      (s.existingIndexedViews.filter (fun v => v.viewAlive)).map (hostRefresh s.data) := by
  cases hrb : s.renderAttributeBuffer <;> simp [markHostResult, hrb]

theorem hostRefresh_viewAlive [Inhabited α] (d : List α) (v : ExistingViewEntry α) :
    (hostRefresh d v).viewAlive = v.viewAlive := by
  by_cases hv : v.viewAlive = true <;> simp [hostRefresh, hv]

theorem hostRefresh_indices [Inhabited α] (d : List α) (v : ExistingViewEntry α) :
    (hostRefresh d v).indices = v.indices := by
  by_cases hv : v.viewAlive = true <;> simp [hostRefresh, hv]

theorem hostRefresh_bufID [Inhabited α] (d : List α) (v : ExistingViewEntry α) :
    (hostRefresh d v).viewBuffer.bufID = v.viewBuffer.bufID := by
  by_cases hv : v.viewAlive = true <;> simp [hostRefresh, hv, AttributeBuffer.setData]

theorem findLiveView_none_iff (uid : Nat) (l : List (ExistingViewEntry α)) :
    findLiveView uid l = none ↔
      ∀ v ∈ l, ¬(v.viewAlive = true ∧ v.indices.uniqueID = uid) := by
  induction l with
  | nil => simp [findLiveView]
  | cons v rest ih =>
    by_cases hc : (v.viewAlive && v.indices.uniqueID == uid) = true
    · simp only [findLiveView, hc, if_true]
      simp only [Bool.and_eq_true, beq_iff_eq] at hc
      simp [hc]
    · simp only [findLiveView, hc, Bool.false_eq_true, if_false]
      simp only [Bool.and_eq_true, beq_iff_eq] at hc
      rw [ih]
      constructor
      · intro hall w hw
        rcases List.mem_cons.mp hw with h1 | h2
        · rw [h1]; exact hc
        · exact hall w h2
      · intro hall w hw
        exact hall w (List.mem_cons_of_mem _ hw)

theorem findLiveView_append_none (uid : Nat) (l1 l2 : List (ExistingViewEntry α))
    (h : findLiveView uid l1 = none) :
    findLiveView uid (l1 ++ l2) = findLiveView uid l2 := by
  induction l1 with
  | nil => simp
  | cons v rest ih =>
    by_cases hc : (v.viewAlive && v.indices.uniqueID == uid) = true
    · simp [findLiveView, hc] at h
    · simp only [findLiveView, hc, if_false] at h
      simp only [List.cons_append, findLiveView, hc, if_false]
      exact ih h

theorem filter_viewAlive_eq_self (l : List (ExistingViewEntry α))
    (h : ∀ v ∈ l, v.viewAlive = true) :
    l.filter (fun v => v.viewAlive) = l := by
  induction l with
  | nil => simp
  | cons v rest ih =>
    have hv := h v (by simp)
    simp only [List.filter_cons, hv, if_true]
    rw [ih (fun w hw => h w (by simp [hw]))]

theorem mem_filter_viewAlive_alive (l : List (ExistingViewEntry α))
    (v : ExistingViewEntry α) (h : v ∈ l.filter (fun w => w.viewAlive)) :
    v.viewAlive = true := by
  have := List.of_mem_filter h
  simpa using this

theorem source_renderBuffer_isSome (s : ManagedBuffer α)
    (h : s.currentCanonicalDataSource = .ok .RenderBuffer) :
    s.hostBufferIsPopulated = false ∧ ∃ rb, s.renderAttributeBuffer = some rb := by
  by_cases hp : s.hostBufferIsPopulated = true
  · simp [ManagedBuffer.currentCanonicalDataSource, hp] at h
  · by_cases hrb : s.renderAttributeBuffer.isSome = true
    · exact ⟨by simpa using hp, Option.isSome_iff_exists.mp hrb⟩
    · exfalso
      by_cases hc : s.dataGetsComputed = true <;>
        simp [ManagedBuffer.currentCanonicalDataSource, hp, hrb, hc] at h

theorem source_hostData_populated (s : ManagedBuffer α)
    (h : s.currentCanonicalDataSource = .ok .HostData) :
    s.hostBufferIsPopulated = true := by
  by_cases hp : s.hostBufferIsPopulated = true
  · exact hp
  · exfalso
    simp only [ManagedBuffer.currentCanonicalDataSource, hp, if_false] at h
    by_cases hrb : s.renderAttributeBuffer.isSome = true <;>
      by_cases hc : s.dataGetsComputed = true <;> simp [hrb, hc] at h

theorem source_needsCompute_state (s : ManagedBuffer α)
    (h : s.currentCanonicalDataSource = .ok .NeedsCompute) :
    s.hostBufferIsPopulated = false ∧ s.renderAttributeBuffer = none ∧
      s.dataGetsComputed = true := by
  by_cases hp : s.hostBufferIsPopulated = true
  · simp [ManagedBuffer.currentCanonicalDataSource, hp] at h
  · by_cases hrb : s.renderAttributeBuffer.isSome = true
    · simp [ManagedBuffer.currentCanonicalDataSource, hp, hrb] at h
    · by_cases hc : s.dataGetsComputed = true
      · exact ⟨by simpa using hp, by simpa using Option.not_isSome_iff_eq_none.mp (by simpa using hrb), hc⟩
      · simp [ManagedBuffer.currentCanonicalDataSource, hp, hrb, hc] at h

theorem source_ok_of_computed (s : ManagedBuffer α) (hc : s.dataGetsComputed = true) :
    ∃ c, s.currentCanonicalDataSource = .ok c := by
  by_cases hp : s.hostBufferIsPopulated = true
  · exact ⟨.HostData, by simp [ManagedBuffer.currentCanonicalDataSource, hp]⟩
  · by_cases hrb : s.renderAttributeBuffer.isSome = true
    · exact ⟨.RenderBuffer, by simp [ManagedBuffer.currentCanonicalDataSource, hp, hrb]⟩
    · exact ⟨.NeedsCompute, by simp [ManagedBuffer.currentCanonicalDataSource, hp, hrb, hc]⟩

/-- C1: `currentCanonicalDataSource` resolves in the fixed order host data,
then render buffer, then needs-compute, raising an internal-consistency error
when none applies; consequently, after any successful `markHostBufferUpdated`
the canonical source is `HostData` regardless of whether a device buffer
exists. -/
theorem C1_canonical_source_precedence [Inhabited α] (s : ManagedBuffer α) :
    (s.hostBufferIsPopulated = true → s.currentCanonicalDataSource = .ok .HostData) ∧
    (s.hostBufferIsPopulated = false → (∃ rb, s.renderAttributeBuffer = some rb) →
      s.currentCanonicalDataSource = .ok .RenderBuffer) ∧
    (s.hostBufferIsPopulated = false → s.renderAttributeBuffer = none →
      s.dataGetsComputed = true → s.currentCanonicalDataSource = .ok .NeedsCompute) ∧
    (s.hostBufferIsPopulated = false → s.renderAttributeBuffer = none →
      s.dataGetsComputed = false → ∃ e, s.currentCanonicalDataSource = .error e) ∧
    (∀ s2, s.markHostBufferUpdated = .ok s2 →
      s2.currentCanonicalDataSource = .ok .HostData) := by
  refine ⟨?_, ?_, ?_, ?_, ?_⟩
  · intro hp
    simp [ManagedBuffer.currentCanonicalDataSource, hp]
  · rintro hp ⟨rb, hrb⟩
    simp [ManagedBuffer.currentCanonicalDataSource, hp, hrb]
  · intro hp hrb hc
    simp [ManagedBuffer.currentCanonicalDataSource, hp, hrb, hc]
  · intro hp hrb hc
    exact ⟨"ManagedBuffer " ++ s.name ++
      " does not have a data in either host or device buffers, nor a compute function.",
      by simp [ManagedBuffer.currentCanonicalDataSource, hp, hrb, hc]⟩
  · intro s2 h2
    rw [markHostBufferUpdated_eq] at h2
    injection h2 with h2
    rw [← h2]
    simp [ManagedBuffer.currentCanonicalDataSource, markHostResult_hostBufferIsPopulated]

theorem C1_canonical_source_precedence_witness :
    mbA.currentCanonicalDataSource = .ok .HostData ∧
    mbD.currentCanonicalDataSource = .ok .RenderBuffer ∧
    mbB.currentCanonicalDataSource = .ok .NeedsCompute ∧
    (∃ e, ({ mkManagedBuffer "x" 0 ([] : List Int) with
      hostBufferIsPopulated := false } : ManagedBuffer Int).currentCanonicalDataSource
        = .error e) ∧
    (markHostResult mbD).currentCanonicalDataSource = .ok .HostData := by
  refine ⟨(C1_canonical_source_precedence mbA).1 rfl,
          (C1_canonical_source_precedence mbD).2.1 rfl ⟨rbW, rfl⟩,
          (C1_canonical_source_precedence mbB).2.2.1 rfl rfl rfl,
          (C1_canonical_source_precedence _).2.2.2.1 rfl rfl rfl,
          (C1_canonical_source_precedence mbD).2.2.2.2 _ (markHostBufferUpdated_eq mbD)⟩

/-- C2 counterexample: for the scenario-B buffer (needs-compute, empty host
data), `size()` is 0 yet `getValue(0)` succeeds with value 5, because the
needs-compute branch of `getValue` invokes the compute callback and then
bounds-checks against the freshly computed data — so `getValue(size())` does
not always fail. -/
theorem C2_getValue_size_counterexample :
    mbB.size = .ok 0 ∧ (mbB.getValue computeB 0).map (fun p => p.1) = .ok 5 :=
  ⟨rfl, rfl⟩

/-- C2 (amended): whenever the canonical source is `HostData` or
`RenderBuffer`, `getValue(size())` fails with the out-of-range error; in the
`NeedsCompute` state (where `size()` is 0) `getValue(0)` first invokes the
compute callback and bounds-checks against the computed data, so it need not
fail. -/
theorem C2_getValue_size_amended [Inhabited α]
    (f : ManagedBuffer α → ManagedBuffer α) (s : ManagedBuffer α) (n : Nat)
    (hsrc : s.currentCanonicalDataSource = .ok .HostData ∨
            s.currentCanonicalDataSource = .ok .RenderBuffer)
    (hn : s.size = .ok n) :
    s.getValue f n = .error (oobMsg s.name n) := by
  rcases hsrc with h | h
  · simp only [ManagedBuffer.size, h] at hn
    injection hn with hn
    simp only [ManagedBuffer.getValue, h]
    rw [← hn, if_pos (Nat.le_refl _)]
  · obtain ⟨hp, rb, hrb⟩ := source_renderBuffer_isSome s h
    simp only [ManagedBuffer.size, h, hrb] at hn
    injection hn with hn
    simp only [ManagedBuffer.getValue, h, hrb]
    rw [← hn, if_pos (Nat.le_refl _)]

theorem C2_getValue_size_amended_witness :
    mbA.size = .ok 3 ∧ mbA.getValue nocompute 3 = .error (oobMsg mbA.name 3) :=
  ⟨rfl, C2_getValue_size_amended nocompute mbA 3 (Or.inl rfl) rfl⟩

/-- C3: under the spec contract that the compute callback populates the host
array and then calls `markHostBufferUpdated`, a successful
`ensureHostBufferPopulated` invokes the callback at most once across two
consecutive calls: the second call is a no-op returning the same state
unchanged, and the total number of callback invocations grows by at most
one. -/
theorem C3_lazy_compute_idempotent [Inhabited α]
    (f : ManagedBuffer α → ManagedBuffer α) (hf : computeContract f)
    (s s1 : ManagedBuffer α) (h1 : s.ensureHostBufferPopulated f = .ok s1) :
    s1.ensureHostBufferPopulated f = .ok s1 ∧ s1.computeCount ≤ s.computeCount + 1 := by
  cases hsrc : s.currentCanonicalDataSource with
  | error e =>
    simp [ManagedBuffer.ensureHostBufferPopulated, hsrc] at h1
  | ok c =>
    cases c with
    | HostData =>
      simp only [ManagedBuffer.ensureHostBufferPopulated, hsrc] at h1
      injection h1 with h1
      subst h1
      refine ⟨?_, Nat.le_succ_of_le (Nat.le_refl _)⟩
      simp [ManagedBuffer.ensureHostBufferPopulated, hsrc]
    | NeedsCompute =>
      simp only [ManagedBuffer.ensureHostBufferPopulated, hsrc] at h1
      injection h1 with h1
      obtain ⟨d, hd⟩ := hf { s with computeCount := s.computeCount + 1 }
      rw [markHostBufferUpdated_eq] at hd
      injection hd with hd
      have hs1 : s1 = markHostResult
          { s with computeCount := s.computeCount + 1, data := d } := by
        rw [← h1]
        unfold callComputeFunc
        rw [← hd]
      have hp : s1.hostBufferIsPopulated = true := by
        rw [hs1]; exact markHostResult_hostBufferIsPopulated _
      constructor
      · have hsrc1 : s1.currentCanonicalDataSource = .ok .HostData := by
          simp [ManagedBuffer.currentCanonicalDataSource, hp]
        simp [ManagedBuffer.ensureHostBufferPopulated, hsrc1]
      · rw [hs1, markHostResult_computeCount]
    | RenderBuffer =>
      obtain ⟨hp, rb, hrb⟩ := source_renderBuffer_isSome s hsrc
      simp only [ManagedBuffer.ensureHostBufferPopulated, hsrc, hrb] at h1
      injection h1 with h1
      subst h1
      have hsrc1 : ({ s with data := rb.contents, renderAttributeBuffer := some rb } :
          ManagedBuffer α).currentCanonicalDataSource = .ok .RenderBuffer := by
        simp [ManagedBuffer.currentCanonicalDataSource, hp]
      constructor
      · simp only [ManagedBuffer.ensureHostBufferPopulated]
        rw [hsrc1]
      · exact Nat.le_succ_of_le (Nat.le_refl _)

theorem C3_lazy_compute_idempotent_witness :
    computeContract computeB ∧
    mbB.ensureHostBufferPopulated computeB = .ok sB1 ∧
    (sB1.ensureHostBufferPopulated computeB = .ok sB1 ∧
      sB1.computeCount ≤ mbB.computeCount + 1) :=
  ⟨fillCompute_contract _, rfl,
    C3_lazy_compute_idempotent computeB (fillCompute_contract _) mbB sB1 rfl⟩

/-- C6: `recomputeIfPopulated` fails (with the usage error) iff the buffer
has no compute function; with one, it is a no-op leaving the state unchanged
when the canonical source is `NeedsCompute`, and otherwise equals
invalidating the host buffer, invoking the compute callback, and performing
`markHostBufferUpdated`. -/
theorem C6_recompute_if_populated [Inhabited α]
    (f : ManagedBuffer α → ManagedBuffer α) (s : ManagedBuffer α) :
    ((∃ e, s.recomputeIfPopulated f = .error e) ↔ s.dataGetsComputed = false) ∧
    (s.dataGetsComputed = true → s.currentCanonicalDataSource = .ok .NeedsCompute →
      s.recomputeIfPopulated f = .ok s) ∧
    (s.dataGetsComputed = true → s.currentCanonicalDataSource ≠ .ok .NeedsCompute →
      s.recomputeIfPopulated f =
        (callComputeFunc f s.invalidateHostBuffer).markHostBufferUpdated) := by
  by_cases hc : s.dataGetsComputed = true
  · obtain ⟨c, hcs⟩ := source_ok_of_computed s hc
    refine ⟨⟨?_, ?_⟩, ?_, ?_⟩
    · rintro ⟨e, he⟩
      exfalso
      cases c <;>
        simp [ManagedBuffer.recomputeIfPopulated, hc, hcs, markHostBufferUpdated_eq] at he
    · intro hcf
      rw [hc] at hcf
      cases hcf
    · intro _ hsrc
      simp [ManagedBuffer.recomputeIfPopulated, hc, hsrc]
    · intro _ hne
      cases c with
      | NeedsCompute => exact absurd hcs hne
      | HostData => simp [ManagedBuffer.recomputeIfPopulated, hc, hcs]
      | RenderBuffer => simp [ManagedBuffer.recomputeIfPopulated, hc, hcs]
  · have hc2 : s.dataGetsComputed = false := by simpa using hc
    refine ⟨⟨fun _ => hc2, fun _ => ?_⟩, fun h _ => absurd h hc, fun h _ => absurd h hc⟩
    exact ⟨"called recomputeIfPopulated() on buffer which does not get computed",
      by simp [ManagedBuffer.recomputeIfPopulated, hc2]⟩

theorem C6_recompute_if_populated_witness :
    (∃ e, mbA.recomputeIfPopulated nocompute = .error e) ∧
    mbB.recomputeIfPopulated computeB = .ok mbB ∧
    sB1.recomputeIfPopulated computeB =
      (callComputeFunc computeB sB1.invalidateHostBuffer).markHostBufferUpdated := by
  refine ⟨(C6_recompute_if_populated nocompute mbA).1.mpr rfl,
          (C6_recompute_if_populated computeB mbB).2.1 rfl rfl,
          (C6_recompute_if_populated computeB sB1).2.2 rfl ?_⟩
  intro h
  rw [show sB1.currentCanonicalDataSource = Except.ok CanonicalDataSource.HostData from rfl] at h
  injection h with h2
  exact absurd h2 (by decide)

/-- C8: for the scenario-B buffer (empty host array plus a compute function
that fills `[5, 6, 7]` and notifies), the canonical source is `NeedsCompute`
and `size()` is 0 before any access, while after
`ensureHostBufferPopulated()` the size is 3 and `getValue(0)` is 5; in
general `size()` is 0 in the needs-compute state and the element count of
the canonical source otherwise. -/
theorem C8_size_by_source (α : Type) [Inhabited α] :
    mbB.currentCanonicalDataSource = .ok .NeedsCompute ∧
    mbB.size = .ok 0 ∧
    mbB.ensureHostBufferPopulated computeB = .ok sB1 ∧
    sB1.size = .ok 3 ∧
    sB1.getValue computeB 0 = .ok (5, sB1) ∧
    (∀ s : ManagedBuffer α, s.currentCanonicalDataSource = .ok .NeedsCompute →
      s.size = .ok 0) ∧
    (∀ s : ManagedBuffer α, s.currentCanonicalDataSource = .ok .HostData →
      s.size = .ok s.data.length) ∧
    (∀ (s : ManagedBuffer α) rb, s.currentCanonicalDataSource = .ok .RenderBuffer →
      s.renderAttributeBuffer = some rb → s.size = .ok rb.getDataSize) := by
  refine ⟨rfl, rfl, rfl, rfl, rfl, ?_, ?_, ?_⟩
  · intro s h
    simp [ManagedBuffer.size, h]
  · intro s h
    simp [ManagedBuffer.size, h]
  · intro s rb h hrb
    simp [ManagedBuffer.size, h, hrb]

theorem updateIndexedViews_ok_state [Inhabited α] (s s2 : ManagedBuffer α)
    (h : s.updateIndexedViews = .ok s2) :
    ∃ vs, s2 = { s with existingIndexedViews := vs } := by
  simp only [ManagedBuffer.updateIndexedViews, ManagedBuffer.removeDeletedIndexedViews] at h
  cases hul : updateViewsList
      ({ s with existingIndexedViews :=
        s.existingIndexedViews.filter (fun v => v.viewAlive) } : ManagedBuffer α)
      (s.existingIndexedViews.filter (fun v => v.viewAlive)) with
  | error e => rw [hul] at h; cases h
  | ok vs =>
    rw [hul] at h
    injection h with h
    exact ⟨vs, h.symm⟩

/-- C7: `markRenderAttributeBufferUpdated` (given that the device buffer
exists) invalidates the host copy (populated flag false, host array
emptied), refreshes every still-alive indexed view from the device contents,
and requests a redraw, while leaving the device buffer handle, name,
uniqueID, dataGetsComputed, allocation counter and compute counter
unchanged; the refresh keeps each live entry (same index reference, same
view-buffer identity, still alive) and only rewrites its contents to the
device-side gather. -/
theorem C7_mark_device_updated [Inhabited α] (s : ManagedBuffer α)
    (rb : AttributeBuffer α) (hrb : s.renderAttributeBuffer = some rb) :
    ∃ s2, s.markRenderAttributeBufferUpdated = .ok s2 ∧
      s2.hostBufferIsPopulated = false ∧ s2.data = [] ∧ s2.redrawRequested = true ∧
      s2.renderAttributeBuffer = some rb ∧ s2.name = s.name ∧ s2.uniqueID = s.uniqueID ∧
      s2.dataGetsComputed = s.dataGetsComputed ∧ s2.nextBufID = s.nextBufID ∧
      s2.computeCount = s.computeCount ∧
      s2.existingIndexedViews =
        (s.existingIndexedViews.filter (fun v => v.viewAlive)).map (deviceRefresh rb) ∧
      (∀ v : ExistingViewEntry α, v.viewAlive = true →
        (deviceRefresh rb v).indices = v.indices ∧
        (deviceRefresh rb v).viewAlive = true ∧
        (deviceRefresh rb v).viewBuffer.bufID = v.viewBuffer.bufID ∧
        (deviceRefresh rb v).viewBuffer.contents = gather rb.contents v.indices.data) := by
  have hiv := updateIndexedViews_device s.invalidateHostBuffer
    (by simp [ManagedBuffer.invalidateHostBuffer]) rb
    (by simp [ManagedBuffer.invalidateHostBuffer, hrb])
  refine ⟨{ s with
      hostBufferIsPopulated := false, data := [], redrawRequested := true, existingIndexedViews :=
        (s.existingIndexedViews.filter (fun v => v.viewAlive)).map (deviceRefresh rb) },
    ?_, rfl, rfl, rfl, hrb, rfl, rfl, rfl, rfl, rfl, rfl, ?_⟩
  · simp only [ManagedBuffer.markRenderAttributeBufferUpdated]
    rw [hiv]
    simp [ManagedBuffer.invalidateHostBuffer]
  · intro v hv
    simp [deviceRefresh, hv, AttributeBuffer.setData]

theorem C7_mark_device_updated_witness :
    mbW.renderAttributeBuffer = some rbW ∧
    ∃ s2, mbW.markRenderAttributeBufferUpdated = .ok s2 ∧
      s2.hostBufferIsPopulated = false ∧ s2.data = [] ∧ s2.redrawRequested = true ∧
      s2.renderAttributeBuffer = some rbW := by
  refine ⟨rfl, ?_⟩
  obtain ⟨s2, h1, h2, h3, h4, h5, _⟩ := C7_mark_device_updated mbW rbW rfl
  exact ⟨s2, h1, h2, h3, h4, h5⟩

/-- C10: when `ensureHostBufferPopulated` runs with the render buffer
canonical (host not populated, device buffer present), it copies the device
contents into the host array but leaves `hostBufferIsPopulated` false, so
the canonical source stays `RenderBuffer` and subsequent `size`/`getValue`
calls keep reading through the device buffer; the populated flag becomes
true only via the plain constructor or via `markHostBufferUpdated` (the
compute-function constructor, invalidation, and `markRenderAttributeBufferUpdated`
leave it or make it false). -/
theorem C10_ensure_from_render_buffer [Inhabited α]
    (f : ManagedBuffer α → ManagedBuffer α) (s : ManagedBuffer α)
    (rb : AttributeBuffer α) (hp : s.hostBufferIsPopulated = false)
    (hrb : s.renderAttributeBuffer = some rb) :
    s.currentCanonicalDataSource = .ok .RenderBuffer ∧
    s.ensureHostBufferPopulated f = .ok { s with data := rb.contents } ∧
    ({ s with data := rb.contents } : ManagedBuffer α).hostBufferIsPopulated = false ∧
    ({ s with data := rb.contents } : ManagedBuffer α).currentCanonicalDataSource
      = .ok .RenderBuffer ∧
    ({ s with data := rb.contents } : ManagedBuffer α).size = .ok rb.getDataSize ∧
    (∀ i, i < rb.getDataSize →
      ({ s with data := rb.contents } : ManagedBuffer α).getValue f i =
        .ok (rb.contents.getD i default, { s with data := rb.contents })) ∧
    s.invalidateHostBuffer.hostBufferIsPopulated = false ∧
    (∀ s2, s.markRenderAttributeBufferUpdated = .ok s2 →
      s2.hostBufferIsPopulated = false) ∧
    (∀ s2, s.markHostBufferUpdated = .ok s2 → s2.hostBufferIsPopulated = true) ∧
    (∀ (nm : String) (uid : Nat) (d : List α),
      (mkManagedBuffer nm uid d).hostBufferIsPopulated = true ∧
      (mkManagedBufferComputed nm uid d).hostBufferIsPopulated = false) := by
  have hsrc : s.currentCanonicalDataSource = .ok .RenderBuffer := by
    simp [ManagedBuffer.currentCanonicalDataSource, hp, hrb]
  have hsrc2 : ({ s with data := rb.contents } :
      ManagedBuffer α).currentCanonicalDataSource = .ok .RenderBuffer := by
    simp [ManagedBuffer.currentCanonicalDataSource, hp, hrb]
  refine ⟨hsrc, ?_, hp, hsrc2, ?_, ?_, rfl, ?_, ?_, fun nm uid d => ⟨rfl, rfl⟩⟩
  · simp only [ManagedBuffer.ensureHostBufferPopulated]
    rw [hsrc]
    simp [hrb]
  · simp only [ManagedBuffer.size]
    rw [hsrc2]
    simp [hrb]
  · intro i hi
    simp only [ManagedBuffer.getValue]
    rw [hsrc2]
    simp only [hrb]
    rw [if_neg (by simpa [AttributeBuffer.getDataSize] using Nat.not_le_of_lt hi)]
  · intro s2 h2
    simp only [ManagedBuffer.markRenderAttributeBufferUpdated] at h2
    cases hu : s.invalidateHostBuffer.updateIndexedViews with
    | error e => rw [hu] at h2; cases h2
    | ok t =>
      rw [hu] at h2
      injection h2 with h2
      obtain ⟨vs, ht⟩ := updateIndexedViews_ok_state _ _ hu
      rw [← h2, ht]
      rfl
  · intro s2 h2
    rw [markHostBufferUpdated_eq] at h2
    injection h2 with h2
    rw [← h2]
    exact markHostResult_hostBufferIsPopulated s

theorem C10_ensure_from_render_buffer_witness :
    mbD.currentCanonicalDataSource = .ok .RenderBuffer ∧
    mbD.ensureHostBufferPopulated nocompute = .ok { mbD with data := rbW.contents } ∧
    ({ mbD with data := rbW.contents } : ManagedBuffer Int).hostBufferIsPopulated = false ∧
    ({ mbD with data := rbW.contents } : ManagedBuffer Int).size = .ok rbW.getDataSize ∧
    ({ mbD with data := rbW.contents } : ManagedBuffer Int).getValue nocompute 0 =
      .ok (rbW.contents.getD 0 default, { mbD with data := rbW.contents }) := by
  obtain ⟨h1, h2, h3, _, h5, h6, _⟩ :=
    C10_ensure_from_render_buffer nocompute mbD rbW rfl rfl
  exact ⟨h1, h2, h3, h5, h6 0 (by decide)⟩

theorem C8_size_by_source_witness :
    mbB.size = .ok 0 ∧ mbA.size = .ok mbA.data.length ∧
    mbD.size = .ok rbW.getDataSize :=
  ⟨(C8_size_by_source Int).2.2.2.2.2.1 mbB rfl,
   (C8_size_by_source Int).2.2.2.2.2.2.1 mbA rfl,
   (C8_size_by_source Int).2.2.2.2.2.2.2 mbD rbW rfl rfl⟩

theorem ensure_host [Inhabited α] (f : ManagedBuffer α → ManagedBuffer α)
    (s : ManagedBuffer α) (h : s.hostBufferIsPopulated = true) :
    s.ensureHostBufferPopulated f = .ok s := by
  simp [ManagedBuffer.ensureHostBufferPopulated, ManagedBuffer.currentCanonicalDataSource, h]

/-- C4: on a cache miss over a host-populated source, the indexed view
created by `getIndexedRenderAttributeBuffer` holds exactly
`gather(data, indices)`; and after the host data is mutated and
`markHostBufferUpdated` is called, the still-alive view entry (same buffer
identity) holds the gather of the new data. -/
theorem C4_indexed_view_gather [Inhabited α]
    (f : ManagedBuffer α → ManagedBuffer α) (s : ManagedBuffer α) (idx : IndexBufferRef)
    (buf : AttributeBuffer α) (s1 : ManagedBuffer α)
    (hhost : s.hostBufferIsPopulated = true)
    (hmiss : findLiveView idx.uniqueID
      (s.existingIndexedViews.filter (fun v => v.viewAlive)) = none)
    (hbounds : ∀ i ∈ idx.data, i < s.data.length)
    (hcall : s.getIndexedRenderAttributeBuffer f idx = .ok (buf, s1)) :
    buf.contents = gather s.data idx.data ∧
    (∀ newData s2,
      ManagedBuffer.markHostBufferUpdated { s1 with data := newData } = .ok s2 →
      ∃ v ∈ s2.existingIndexedViews, v.viewBuffer.bufID = buf.bufID ∧
        v.viewBuffer.contents = gather newData idx.data ∧ v.indices = idx) := by
  simp only [ManagedBuffer.getIndexedRenderAttributeBuffer,
    ManagedBuffer.removeDeletedIndexedViews, hmiss,
    ensure_host f ({ s with existingIndexedViews :=
      s.existingIndexedViews.filter (fun v => v.viewAlive) }) hhost] at hcall
  injection hcall with hpair
  injection hpair with hbuf hs1
  constructor
  · rw [← hbuf]
  · intro newData s2 h2
    rw [markHostBufferUpdated_eq] at h2
    injection h2 with h2
    refine ⟨hostRefresh newData
      { indices := idx, viewBuffer := buf, viewAlive := true, deviceUpdateProgram := false },
      ?_, ?_, ?_, ?_⟩
    · rw [← h2, markHostResult_existingIndexedViews]
      apply List.mem_map_of_mem
      apply List.mem_filter.mpr
      refine ⟨?_, by simp⟩
      rw [← hs1]
      simp [← hbuf]
    · simp [hostRefresh, AttributeBuffer.setData]
    · simp [hostRefresh, AttributeBuffer.setData]
    · simp [hostRefresh]

theorem C4_indexed_view_gather_witness :
    mbA.getIndexedRenderAttributeBuffer cf0 idxI = .ok (pA.1, pA.2) ∧
    pA.1.contents = gather mbA.data idxI.data ∧
    (∃ v ∈ (markHostResult { pA.2 with data := ([11, 21, 31] : List Int) }).existingIndexedViews,
      v.viewBuffer.bufID = pA.1.bufID ∧
        v.viewBuffer.contents = gather [11, 21, 31] idxI.data ∧ v.indices = idxI) := by
  have h := C4_indexed_view_gather cf0 mbA idxI pA.1 pA.2 rfl rfl (by decide) rfl
  exact ⟨rfl, h.1, h.2 [11, 21, 31] _ (markHostBufferUpdated_eq _)⟩

theorem findLiveView_filter_none (uid : Nat) (l : List (ExistingViewEntry α))
    (h : findLiveView uid l = none) :
    findLiveView uid (l.filter (fun v => v.viewAlive)) = none := by
  rw [findLiveView_none_iff] at h ⊢
  intro v hv
  exact h v (List.mem_of_mem_filter hv)

theorem findLiveView_hostRefresh_none [Inhabited α] (uid : Nat) (d : List α)
    (l : List (ExistingViewEntry α)) (h : findLiveView uid l = none) :
    findLiveView uid (l.map (hostRefresh d)) = none := by
  rw [findLiveView_none_iff] at h ⊢
  intro v hv
  obtain ⟨w, hw, hvw⟩ := List.mem_map.mp hv
  rw [← hvw]
  simp only [hostRefresh_viewAlive, hostRefresh_indices]
  exact h w hw

theorem allAlive_map_hostRefresh [Inhabited α] (d : List α)
    (l : List (ExistingViewEntry α)) (h : ∀ v ∈ l, v.viewAlive = true) :
    ∀ v ∈ l.map (hostRefresh d), v.viewAlive = true := by
  intro v hv
  obtain ⟨w, hw, hvw⟩ := List.mem_map.mp hv
  rw [← hvw, hostRefresh_viewAlive]
  exact h w hw

theorem findLiveView_append_singleton_some (uid : Nat)
    (l : List (ExistingViewEntry α)) (w : ExistingViewEntry α)
    (h : findLiveView uid l = none) (hw : w.viewAlive = true)
    (hwid : w.indices.uniqueID = uid) :
    findLiveView uid (l ++ [w]) = some w := by
  rw [findLiveView_append_none uid l [w] h]
  simp [findLiveView, hw, hwid]

theorem ensure_views [Inhabited α] (f : ManagedBuffer α → ManagedBuffer α)
    (hf : computeContract f) (s s2 : ManagedBuffer α)
    (h : s.ensureHostBufferPopulated f = .ok s2) :
    s2.existingIndexedViews = s.existingIndexedViews ∨
    ∃ d, s2.existingIndexedViews =
      (s.existingIndexedViews.filter (fun v => v.viewAlive)).map (hostRefresh d) := by
  cases hsrc : s.currentCanonicalDataSource with
  | error e => simp [ManagedBuffer.ensureHostBufferPopulated, hsrc] at h
  | ok c =>
    cases c with
    | HostData =>
      simp only [ManagedBuffer.ensureHostBufferPopulated, hsrc] at h
      injection h with h
      rw [← h]
      exact Or.inl rfl
    | NeedsCompute =>
      simp only [ManagedBuffer.ensureHostBufferPopulated, hsrc] at h
      injection h with h
      obtain ⟨d, hd⟩ := hf { s with computeCount := s.computeCount + 1 }
      rw [markHostBufferUpdated_eq] at hd
      injection hd with hd
      refine Or.inr ⟨d, ?_⟩
      rw [← h]
      show (callComputeFunc f s).existingIndexedViews = _
      unfold callComputeFunc
      rw [← hd, markHostResult_existingIndexedViews]
    | RenderBuffer =>
      obtain ⟨hp, rb, hrb⟩ := source_renderBuffer_isSome s hsrc
      simp only [ManagedBuffer.ensureHostBufferPopulated, hsrc, hrb] at h
      injection h with h
      rw [← h]
      exact Or.inl rfl

theorem getIndexed_cache_hit_of_find [Inhabited α]
    (f : ManagedBuffer α → ManagedBuffer α) (s1 : ManagedBuffer α)
    (idx2 : IndexBufferRef) (w : ExistingViewEntry α)
    (hall : ∀ v ∈ s1.existingIndexedViews, v.viewAlive = true)
    (hfind : findLiveView idx2.uniqueID s1.existingIndexedViews = some w) :
    s1.getIndexedRenderAttributeBuffer f idx2 = .ok (w.viewBuffer, s1) := by
  simp only [ManagedBuffer.getIndexedRenderAttributeBuffer,
    ManagedBuffer.removeDeletedIndexedViews]
  rw [filter_viewAlive_eq_self _ hall, hfind]

/-- C5: a second call to `getIndexedRenderAttributeBuffer` with an index
buffer of the same `uniqueID`, with no intervening data change and the first
handle still alive, is a cache hit: it returns the very same device buffer
handle and leaves the state unchanged (in particular, no new device buffer
is allocated and the gather is not recomputed). -/
theorem C5_view_cache_hit [Inhabited α]
    (f : ManagedBuffer α → ManagedBuffer α) (hf : computeContract f)
    (s s1 : ManagedBuffer α) (idx idx2 : IndexBufferRef) (buf : AttributeBuffer α)
    (hid : idx2.uniqueID = idx.uniqueID)
    (hcall : s.getIndexedRenderAttributeBuffer f idx = .ok (buf, s1)) :
    s1.getIndexedRenderAttributeBuffer f idx2 = .ok (buf, s1) := by
  simp only [ManagedBuffer.getIndexedRenderAttributeBuffer,
    ManagedBuffer.removeDeletedIndexedViews] at hcall
  cases hfind : findLiveView idx.uniqueID
      (s.existingIndexedViews.filter (fun v => v.viewAlive)) with
  | some v =>
    rw [hfind] at hcall
    injection hcall with hpair
    injection hpair with hbuf hs1
    have hall : ∀ w ∈ s1.existingIndexedViews, w.viewAlive = true := by
      rw [← hs1]
      exact fun w hw => mem_filter_viewAlive_alive _ w hw
    have hfind2 : findLiveView idx2.uniqueID s1.existingIndexedViews = some v := by
      rw [hid, ← hs1]
      exact hfind
    rw [getIndexed_cache_hit_of_find f s1 idx2 v hall hfind2, hbuf]
  | none =>
    rw [hfind] at hcall
    cases hens : ManagedBuffer.ensureHostBufferPopulated f
        { s with existingIndexedViews :=
          s.existingIndexedViews.filter (fun v => v.viewAlive) } with
    | error e => rw [hens] at hcall; cases hcall
    | ok s2 =>
      rw [hens] at hcall
      injection hcall with hpair
      injection hpair with hbuf hs1
      have hviews := ensure_views f hf _ s2 hens
      have hall2 : ∀ w ∈ s2.existingIndexedViews, w.viewAlive = true := by
        rcases hviews with hv | ⟨d, hv⟩
        · rw [hv]
          exact fun w hw => mem_filter_viewAlive_alive _ w hw
        · rw [hv]
          exact allAlive_map_hostRefresh d _
            (fun w hw => mem_filter_viewAlive_alive _ w hw)
      have hfind2 : findLiveView idx.uniqueID s2.existingIndexedViews = none := by
        rcases hviews with hv | ⟨d, hv⟩
        · rw [hv]
          exact hfind
        · rw [hv]
          exact findLiveView_hostRefresh_none idx.uniqueID d _
            (findLiveView_filter_none idx.uniqueID _ hfind)
      have hnew : findLiveView idx2.uniqueID s1.existingIndexedViews =
          some { indices := idx,
                 viewBuffer := { bufID := s2.nextBufID, contents := gather s2.data idx.data },
                 viewAlive := true, deviceUpdateProgram := false } := by
        rw [hid, ← hs1]
        exact findLiveView_append_singleton_some idx.uniqueID _ _ hfind2 rfl rfl
      have hall1 : ∀ w ∈ s1.existingIndexedViews, w.viewAlive = true := by
        rw [← hs1]
        intro w hw
        rcases List.mem_append.mp hw with h1 | h1
        · exact hall2 w h1
        · rw [List.mem_singleton.mp h1]
      rw [getIndexed_cache_hit_of_find f s1 idx2 _ hall1 hnew, ← hbuf]

theorem C5_view_cache_hit_witness :
    computeContract cf0 ∧
    mbA.getIndexedRenderAttributeBuffer cf0 idxI = .ok (pA.1, pA.2) ∧
    pA.2.getIndexedRenderAttributeBuffer cf0 idxI = .ok (pA.1, pA.2) :=
  ⟨fillCompute_contract _, rfl,
    C5_view_cache_hit cf0 (fillCompute_contract _) mbA pA.2 idxI idxI pA.1 rfl rfl⟩

theorem sameDeviceID_of_eq (s s2 : ManagedBuffer α)
    (h : s2.renderAttributeBuffer = s.renderAttributeBuffer) : sameDeviceID s s2 :=
  fun rb hrb => ⟨rb, by rw [h, hrb], rfl⟩

theorem sameDeviceID_trans (s t u : ManagedBuffer α)
    (h1 : sameDeviceID s t) (h2 : sameDeviceID t u) : sameDeviceID s u := by
  intro rb hrb
  obtain ⟨rb2, hb2, hid2⟩ := h1 rb hrb
  obtain ⟨rb3, hb3, hid3⟩ := h2 rb2 hb2
  exact ⟨rb3, hb3, hid3.trans hid2⟩

theorem sameDeviceID_markHostResult [Inhabited α] (s : ManagedBuffer α) :
    sameDeviceID s (markHostResult s) := by
  intro rb hrb
  refine ⟨rb.setData s.data, ?_, rfl⟩
  rw [markHostResult_renderAttributeBuffer, hrb]
  rfl

theorem fillCompute_preservesDeviceID [Inhabited α] (d : List α) :
    preservesDeviceID (fillCompute d) := by
  intro t
  have hfc : fillCompute d t = markHostResult { t with data := d } := by
    simp [fillCompute, okOr, markHostBufferUpdated_eq]
  rw [hfc]
  exact sameDeviceID_trans t { t with data := d } (markHostResult { t with data := d })
    (sameDeviceID_of_eq _ _ rfl) (sameDeviceID_markHostResult _)

theorem callCompute_sameDeviceID [Inhabited α] (f : ManagedBuffer α → ManagedBuffer α)
    (hf : preservesDeviceID f) (t : ManagedBuffer α) :
    sameDeviceID t (callComputeFunc f t) :=
  sameDeviceID_trans t { t with computeCount := t.computeCount + 1 } (callComputeFunc f t)
    (sameDeviceID_of_eq _ _ rfl) (hf _)

theorem ensure_sameDeviceID [Inhabited α] (f : ManagedBuffer α → ManagedBuffer α)
    (hf : preservesDeviceID f) (s s2 : ManagedBuffer α)
    (h : s.ensureHostBufferPopulated f = .ok s2) : sameDeviceID s s2 := by
  cases hsrc : s.currentCanonicalDataSource with
  | error e => simp [ManagedBuffer.ensureHostBufferPopulated, hsrc] at h
  | ok c =>
    cases c with
    | HostData =>
      simp only [ManagedBuffer.ensureHostBufferPopulated, hsrc] at h
      injection h with h
      rw [← h]
      exact sameDeviceID_of_eq _ _ rfl
    | NeedsCompute =>
      simp only [ManagedBuffer.ensureHostBufferPopulated, hsrc] at h
      injection h with h
      rw [← h]
      exact callCompute_sameDeviceID f hf s
    | RenderBuffer =>
      obtain ⟨hp, rb', hrb'⟩ := source_renderBuffer_isSome s hsrc
      simp only [ManagedBuffer.ensureHostBufferPopulated, hsrc, hrb'] at h
      injection h with h
      rw [← h]
      exact sameDeviceID_of_eq _ _ (by rw [hrb'])

theorem getValue_sameDeviceID [Inhabited α] (f : ManagedBuffer α → ManagedBuffer α)
    (hf : preservesDeviceID f) (s : ManagedBuffer α) (i : Nat)
    (p : α × ManagedBuffer α) (h : s.getValue f i = .ok p) : sameDeviceID s p.2 := by
  cases hsrc : s.currentCanonicalDataSource with
  | error e => simp [ManagedBuffer.getValue, hsrc] at h
  | ok c =>
    cases c with
    | HostData =>
      simp only [ManagedBuffer.getValue, hsrc] at h
      split at h
      · cases h
      · injection h with h
        rw [← h]
        exact sameDeviceID_of_eq _ _ rfl
    | NeedsCompute =>
      simp only [ManagedBuffer.getValue, hsrc] at h
      split at h
      · cases h
      · injection h with h
        rw [← h]
        exact callCompute_sameDeviceID f hf s
    | RenderBuffer =>
      cases hrb' : s.renderAttributeBuffer with
      | none => simp [ManagedBuffer.getValue, hsrc, hrb'] at h
      | some rb' =>
        simp only [ManagedBuffer.getValue, hsrc, hrb'] at h
        split at h
        · cases h
        · injection h with h
          rw [← h]
          exact sameDeviceID_of_eq _ _ rfl

theorem recompute_sameDeviceID [Inhabited α] (f : ManagedBuffer α → ManagedBuffer α)
    (hf : preservesDeviceID f) (s s2 : ManagedBuffer α)
    (h : s.recomputeIfPopulated f = .ok s2) : sameDeviceID s s2 := by
  by_cases hc : s.dataGetsComputed = true
  · simp only [ManagedBuffer.recomputeIfPopulated, hc, Bool.not_true,
      Bool.false_eq_true, if_false] at h
    cases hsrc : s.currentCanonicalDataSource with
    | error e => rw [hsrc] at h; cases h
    | ok c =>
      rw [hsrc] at h
      cases c with
      | NeedsCompute =>
        injection h with h
        rw [← h]
        exact sameDeviceID_of_eq _ _ rfl
      | HostData =>
        rw [markHostBufferUpdated_eq] at h
        injection h with h
        rw [← h]
        exact sameDeviceID_trans s (callComputeFunc f s.invalidateHostBuffer)
          (markHostResult (callComputeFunc f s.invalidateHostBuffer))
          (sameDeviceID_trans s s.invalidateHostBuffer
            (callComputeFunc f s.invalidateHostBuffer) (sameDeviceID_of_eq _ _ rfl)
            (callCompute_sameDeviceID f hf _))
          (sameDeviceID_markHostResult _)
      | RenderBuffer =>
        rw [markHostBufferUpdated_eq] at h
        injection h with h
        rw [← h]
        exact sameDeviceID_trans s (callComputeFunc f s.invalidateHostBuffer)
          (markHostResult (callComputeFunc f s.invalidateHostBuffer))
          (sameDeviceID_trans s s.invalidateHostBuffer
            (callComputeFunc f s.invalidateHostBuffer) (sameDeviceID_of_eq _ _ rfl)
            (callCompute_sameDeviceID f hf _))
          (sameDeviceID_markHostResult _)
  · simp [ManagedBuffer.recomputeIfPopulated, (by simpa using hc : s.dataGetsComputed = false)] at h

theorem markRenderAttr_sameDeviceID [Inhabited α] (s s2 : ManagedBuffer α)
    (h : s.markRenderAttributeBufferUpdated = .ok s2) : sameDeviceID s s2 := by
  simp only [ManagedBuffer.markRenderAttributeBufferUpdated] at h
  cases hu : s.invalidateHostBuffer.updateIndexedViews with
  | error e => rw [hu] at h; cases h
  | ok t =>
    rw [hu] at h
    injection h with h
    obtain ⟨vs, ht⟩ := updateIndexedViews_ok_state _ _ hu
    rw [← h, ht]
    exact sameDeviceID_of_eq _ _ rfl

theorem getIndexed_sameDeviceID [Inhabited α] (f : ManagedBuffer α → ManagedBuffer α)
    (hf : preservesDeviceID f) (s : ManagedBuffer α) (idx : IndexBufferRef)
    (p : AttributeBuffer α × ManagedBuffer α)
    (h : s.getIndexedRenderAttributeBuffer f idx = .ok p) : sameDeviceID s p.2 := by
  simp only [ManagedBuffer.getIndexedRenderAttributeBuffer,
    ManagedBuffer.removeDeletedIndexedViews] at h
  cases hfind : findLiveView idx.uniqueID
      (s.existingIndexedViews.filter (fun v => v.viewAlive)) with
  | some v =>
    rw [hfind] at h
    injection h with h
    rw [← h]
    exact sameDeviceID_of_eq _ _ rfl
  | none =>
    rw [hfind] at h
    cases hens : ManagedBuffer.ensureHostBufferPopulated f
        { s with existingIndexedViews :=
          s.existingIndexedViews.filter (fun v => v.viewAlive) } with
    | error e => rw [hens] at h; cases h
    | ok s2 =>
      rw [hens] at h
      injection h with h
      rw [← h]
      have h1 : sameDeviceID s s2 :=
        sameDeviceID_trans s
          { s with existingIndexedViews :=
            s.existingIndexedViews.filter (fun v => v.viewAlive) }
          s2 (sameDeviceID_of_eq _ _ rfl) (ensure_sameDeviceID f hf _ s2 hens)
      exact sameDeviceID_trans _ _ _ h1 (sameDeviceID_of_eq _ _ rfl)

/-- C9: once the device buffer exists, no operation of the ManagedBuffer
ever swaps it for a different buffer object: `getRenderAttributeBuffer`
returns the existing handle with the state unchanged,
`markHostBufferUpdated` only rewrites its contents via set-data (same
object id), and every other operation (given a compute callback that also
never swaps it) preserves the device buffer object identity. -/
theorem C9_device_buffer_identity_stable [Inhabited α]
    (f : ManagedBuffer α → ManagedBuffer α) (hf : preservesDeviceID f)
    (s : ManagedBuffer α) (rb : AttributeBuffer α)
    (hrb : s.renderAttributeBuffer = some rb) :
    s.getRenderAttributeBuffer f = .ok (rb, s) ∧
    (s.markHostBufferUpdated = .ok (markHostResult s) ∧
      (markHostResult s).renderAttributeBuffer = some (rb.setData s.data) ∧
      (rb.setData s.data).bufID = rb.bufID) ∧
    (∀ s2, s.ensureHostBufferPopulated f = .ok s2 → sameDeviceID s s2) ∧
    (∀ i p, s.getValue f i = .ok p → sameDeviceID s p.2) ∧
    (∀ s2, s.recomputeIfPopulated f = .ok s2 → sameDeviceID s s2) ∧
    (∀ s2, s.markRenderAttributeBufferUpdated = .ok s2 → sameDeviceID s s2) ∧
    (∀ idx p, s.getIndexedRenderAttributeBuffer f idx = .ok p → sameDeviceID s p.2) ∧
    sameDeviceID s s.invalidateHostBuffer ∧
    sameDeviceID s s.removeDeletedIndexedViews ∧
    (∀ s2, s.updateIndexedViews = .ok s2 → sameDeviceID s s2) := by
  refine ⟨?_, ⟨markHostBufferUpdated_eq s, ?_, rfl⟩,
    fun s2 h => ensure_sameDeviceID f hf s s2 h,
    fun i p h => getValue_sameDeviceID f hf s i p h,
    fun s2 h => recompute_sameDeviceID f hf s s2 h,
    fun s2 h => markRenderAttr_sameDeviceID s s2 h,
    fun idx p h => getIndexed_sameDeviceID f hf s idx p h,
    sameDeviceID_of_eq _ _ rfl, sameDeviceID_of_eq _ _ rfl, ?_⟩
  · simp [ManagedBuffer.getRenderAttributeBuffer, hrb]
  · rw [markHostResult_renderAttributeBuffer, hrb]
    rfl
  · intro s2 h
    obtain ⟨vs, ht⟩ := updateIndexedViews_ok_state _ _ h
    rw [ht]
    exact sameDeviceID_of_eq _ _ rfl

theorem C9_device_buffer_identity_stable_witness :
    preservesDeviceID cf0 ∧
    mbW.renderAttributeBuffer = some rbW ∧
    mbW.getRenderAttributeBuffer cf0 = .ok (rbW, mbW) ∧
    (markHostResult mbW).renderAttributeBuffer = some (rbW.setData mbW.data) ∧
    (rbW.setData mbW.data).bufID = rbW.bufID := by
  have h := C9_device_buffer_identity_stable cf0 (fillCompute_preservesDeviceID [0])
    mbW rbW rfl
  exact ⟨fillCompute_preservesDeviceID [0], rfl, h.1, h.2.1.2.1, h.2.1.2.2⟩

end Polyscope
